import Mathlib

/-!
Shallow embedding of the qcrbox_cmd_tester expected-result verification core:
`io_adapters.py` (document accessor), `models/expected_values.py`
(specification model and range normalization) and `test_implementations.py`
(comparison routines and dispatch).  Python machine floats are modelled by
rationals; Python exceptions by an explicit error sum type threaded through
`Except`.
-/

namespace QcrboxCmdTester

/-- Python exception kinds that the embedded code can raise.  `valueMissing`
models the repository's `ValueMissingError`, the others the built-in
`ValueError`, `TypeError`, `IndexError` and `KeyError`. -/
inductive PyError where
  | valueMissing (msg : String)
  | valueError (msg : String)
  | typeError (msg : String)
  | indexError (msg : String)
  | keyError (msg : String)
deriving DecidableEq, Repr

/-- The message carried by an exception (Python `str(e)`). -/
def PyError.msg : PyError → String
  | .valueMissing m => m
  | .valueError m => m
  | .typeError m => m
  | .indexError m => m
  | .keyError m => m

/-- A Python value of type `str | int | bool` as allowed for
`expected_value` / `forbidden_value` / `row_entry_value` fields.  A Python
float reaches every comparison in the source only through its rendered
decimal string (`str(value)`), so float-valued fields are represented here
through the `str` constructor carrying that rendering. -/
inductive PyValue where
  | str (s : String)
  | int (n : Int)
  | bool (b : Bool)
deriving DecidableEq, Repr

/-- Python `str()` applied to a `PyValue`. -/
def pyStr : PyValue → String
  | .str s => s
  | .int n => toString n
  | .bool true => "True"
  | .bool false => "False"

/-- One CIF loop: a column-oriented table, each column a name with its list
of textual cell values (PyCifRW hands cell values back as strings). -/
structure CifLoop where
  cols : List (String × List String)
deriving DecidableEq, Repr

/-- The column of a given name inside a loop, when it exists
(Python `loop[name]`). -/
def CifLoop.getCol? (l : CifLoop) (name : String) : Option (List String) :=
  (l.cols.find? (fun p => p.1 == name)).map (fun p => p.2)

/-- A parsed CIF block: named scalar entries plus a list of loops.
This is the state exposed by `PyCIFRWAdapter` after `ReadCif` has parsed the
text (parsing itself is external to the repository). -/
structure CifBlock where
  scalars : List (String × String)
  loops : List CifLoop
deriving DecidableEq, Repr

/-- A value stored in a block: either a scalar entry or the full column of a
looped item (PyCifRW returns the list of cell values for loop items). -/
inductive CifValue where
  | scalar (s : String)
  | column (vs : List String)
deriving DecidableEq, Repr

/-- Look a name up in the block: scalar entries first, then loop columns
(Python `self.block[name]`). -/
def CifBlock.find? (b : CifBlock) (name : String) : Option CifValue :=
  match b.scalars.find? (fun p => p.1 == name) with
  | some p => some (.scalar p.2)
  | none => (b.loops.findSome? (fun l => l.getCol? name)).map .column

/-- Membership test `name in self.block` (covers scalars and loop items). -/
def CifBlock.hasEntry (b : CifBlock) (name : String) : Bool :=
  (b.find? name).isSome

/-- `self.block.GetLoop(name)`: the loop that holds a column of that name. -/
def CifBlock.getLoop? (b : CifBlock) (name : String) : Option CifLoop :=
  b.loops.find? (fun l => (l.getCol? name).isSome)

/-- Python `str()` of a list of strings, used when a block lookup returns a
loop column; quote escaping inside cell values is elided, which no claim
depends on. -/
def pyListStr (vs : List String) : String :=
  "[" ++ String.intercalate ", " (vs.map (fun s => "'" ++ s ++ "'")) ++ "]"

/-- Python `str()` of a resolved block value. -/
def cifValueStr : CifValue → String
  | .scalar s => s
  | .column vs => pyListStr vs

/-- `PyCIFRWAdapter.get_entry_from_cif_block`: raise `ValueMissingError` when
the entry is absent, otherwise return the stored value. -/
def get_entry_from_cif_block (b : CifBlock) (entry_name : String) :
    Except PyError CifValue :=
  match b.find? entry_name with
  | some v => .ok v
  | none =>
      .error (.valueMissing
        ("CIF entry '" ++ entry_name ++ "' not found in CIF block."))

/-- The `" AND ".join(f"{name}={val}" ...)` description of lookup
conditions. -/
def lookupDesc (row_lookups : List (String × String)) : String :=
  String.intercalate " AND " (row_lookups.map (fun p => p.1 ++ "=" ++ p.2))

/-- `set(idx for idx, val in enumerate(col) if val == test_val)`: the indices
of the cells of a column equal to the probe value. -/
def matchingIdxs (col : List String) (test_val : String) : List Nat :=
  (List.range col.length).filter (fun i => col.getD i "" == test_val)

/-- The per-condition index sets `[set(...) for key, test_val in row_lookups]`;
looking a key up that the chosen loop lacks raises `KeyError` exactly where
the comprehension would evaluate `loop[key]`. -/
def perLookupIdxs (l : CifLoop) :
    List (String × String) → Except PyError (List (List Nat))
  | [] => .ok []
  | (key, test_val) :: rest =>
      match l.getCol? key with
      | none => .error (.keyError key)
      | some col =>
          match perLookupIdxs l rest with
          | .ok ls => .ok (matchingIdxs col test_val :: ls)
          | .error e => .error e

/-- `indexes[0].intersection(*indexes[1:])`; an empty `row_lookups` list hits
`indexes[0]` and raises `IndexError`. -/
def loopOverlap (l : CifLoop) (row_lookups : List (String × String)) :
    Except PyError (List Nat) :=
  match perLookupIdxs l row_lookups with
  | .error e => .error e
  | .ok [] => .error (.indexError "list index out of range")
  | .ok (first :: rest) =>
      .ok (rest.foldl (fun acc s => acc.filter (fun i => s.contains i)) first)

/-- `PyCIFRWAdapter.get_loop_entry_from_cif_block`.  The source performs its
entry/column membership validation twice verbatim; the repetition has no
effect and is folded into one pass here.  In the more-than-one-match branch
the source evaluates `" ".join(overlap)` on a set of `int` row indices,
which raises `TypeError` before its `raise ValueError("More than one row
found ...")` statement can execute; the embedding reproduces that. -/
def get_loop_entry_from_cif_block (b : CifBlock) (entry_name : String)
    (row_lookups : List (String × String)) : Except PyError String :=
  if b.hasEntry entry_name = false then
    .error (.valueMissing
      ("CIF entry '" ++ entry_name ++ "' not found in CIF block."))
  else
    match row_lookups.find? (fun p => !(b.hasEntry p.1)) with
    | some p =>
        .error (.valueMissing
          ("CIF entry '" ++ p.1 ++ "' not found in CIF block."))
    | none =>
        match b.getLoop? entry_name with
        | none => .error (.keyError entry_name)
        | some l =>
            match loopOverlap l row_lookups with
            | .error e => .error e
            | .ok overlap =>
                match overlap with
                | [i] =>
                    match l.getCol? entry_name with
                    | none => .error (.keyError entry_name)
                    | some col =>
                        match col.get? i with
                        | some v => .ok v
                        | none =>
                            .error (.indexError "list index out of range")
                | [] =>
                    .error (.valueError
                      ("No row found matching conditions: "
                        ++ lookupDesc row_lookups))
                | _ =>
                    .error (.typeError
                      "sequence item 0: expected str instance, int found")

/-- The whitespace characters Python `str.strip()` removes (ASCII part). -/
def isPyWs (c : Char) : Bool :=
  c == ' ' || c == '\t' || c == '\n' || c == '\r' || c == '\x0b' || c == '\x0c'

/-- Drop leading whitespace from a character list. -/
def dropLeadingWs : List Char → List Char
  | [] => []
  | c :: cs => if isPyWs c then dropLeadingWs cs else c :: cs

/-- Python `s.strip()`: remove surrounding whitespace. -/
def pyStrip (s : String) : String :=
  ⟨(dropLeadingWs (dropLeadingWs s.data).reverse).reverse⟩

/-- The digits accumulated so far as a natural number. -/
def digitsVal (cs : List Char) : Nat :=
  cs.foldl (fun a c => 10 * a + (c.toNat - 48)) 0

/-- Split a leading run of ASCII digits off a character list. -/
def takeDigits : List Char → List Char × List Char
  | [] => ([], [])
  | c :: rest =>
      if c.isDigit then
        let p := takeDigits rest
        (c :: p.1, p.2)
      else ([], c :: rest)

/-- Consume one optional leading sign. -/
def parseSign : List Char → Int × List Char
  | '+' :: r => (1, r)
  | '-' :: r => (-1, r)
  | cs => (1, cs)

/-- The syntactic pieces of a parsed decimal float literal. -/
structure FloatParts where
  sgn : Int
  intDigits : List Char
  fracDigits : List Char
  exp : Int
deriving DecidableEq, Repr

/-- Core of Python `float()` on a stripped character sequence: optional sign,
decimal digits with optional point, optional exponent.  (`inf`, `nan`,
digit-group underscores and non-ASCII digits are outside the model; no claim
involves them.) -/
def pyFloatCore (cs : List Char) : Option FloatParts :=
  let s1 := parseSign cs
  let ipp := takeDigits s1.2
  let fpp :=
    match ipp.2 with
    | '.' :: r => takeDigits r
    | _ => ([], ipp.2)
  if ipp.1.isEmpty && fpp.1.isEmpty then none
  else
    match fpp.2 with
    | [] => some ⟨s1.1, ipp.1, fpp.1, 0⟩
    | c :: r =>
        if c == 'e' || c == 'E' then
          let esp := parseSign r
          let edp := takeDigits esp.2
          if edp.1.isEmpty || !edp.2.isEmpty then none
          else some ⟨s1.1, ipp.1, fpp.1, esp.1 * (digitsVal edp.1 : Int)⟩
        else none

/-- The rational denoted by parsed float pieces. -/
def partsVal (p : FloatParts) : ℚ :=
  (p.sgn : ℚ)
    * ((digitsVal p.intDigits : ℚ)
      + (digitsVal p.fracDigits : ℚ) / (10 : ℚ) ^ p.fracDigits.length)
    * (10 : ℚ) ^ p.exp

/-- Python `float(s)` for a string: strip surrounding whitespace, then parse
a decimal literal; `none` models the raised `ValueError`. -/
def pyFloatOfString? (s : String) : Option ℚ :=
  (pyFloatCore (pyStrip s).data).map partsVal

/-- Python `float(v)` applied to a resolved block value: calling it on a loop
column (a list) raises `TypeError`, which every caller catches together with
`ValueError`, so both collapse to `none`. -/
def cifFloat? : CifValue → Option ℚ
  | .scalar s => pyFloatOfString? s
  | .column _ => none

/-- Possible fields of the declarative input of a `within` test, the four
keys `data_to_minmax` inspects (`some` models key presence in the dict). -/
structure WithinData where
  expected_value : Option ℚ
  allowed_deviation : Option ℚ
  min_value : Option ℚ
  max_value : Option ℚ
deriving DecidableEq, Repr

/-- `all(key in data for key in ("expected_value", "allowed_deviation"))`. -/
def WithinData.has1 (d : WithinData) : Bool :=
  d.expected_value.isSome && d.allowed_deviation.isSome

/-- `all(key in data for key in ("min_value", "max_value"))`. -/
def WithinData.has2 (d : WithinData) : Bool :=
  d.min_value.isSome && d.max_value.isSome

/-- `data_to_minmax`: normalize the declarative input of a `within` test to
`(min_value, max_value)`; an `.error` models the raised `ValueError`. -/
def data_to_minmax (d : WithinData) : Except String (ℚ × ℚ) :=
  if !(d.has1 || d.has2) then
    .error
      "Within test requires either (expected_value + allowed_deviation) or (min_value + max_value)"
  else if d.has1 then
    let expected := d.expected_value.getD 0
    let deviation := d.allowed_deviation.getD 0
    .ok (expected - deviation, expected + deviation)
  else
    let min_val := d.min_value.getD 0
    let max_val := d.max_value.getD 0
    if min_val > max_val then
      .error "min_value cannot be greater than max_value"
    else
      .ok (min_val, max_val)

/-- `StatusExpectedResult.expected`. -/
inductive StatusKind where
  | successful
  | failed
  | warning
deriving DecidableEq, Repr

/-- `StatusExpectedResult`. -/
structure StatusExpectedResult where
  expected : StatusKind
deriving DecidableEq, Repr

/-- `CifEntryMatchExpectedResult`. -/
structure CifEntryMatchExpectedResult where
  cif_entry_name : String
  expected_value : PyValue
deriving DecidableEq, Repr

/-- `CifEntryNonMatchExpectedResult`. -/
structure CifEntryNonMatchExpectedResult where
  cif_entry_name : String
  forbidden_value : PyValue
deriving DecidableEq, Repr

/-- `CifEntryWithinExpectedResult` after construction: the normalized
internal representation. -/
structure CifEntryWithinExpectedResult where
  cif_entry_name : String
  min_value : ℚ
  max_value : ℚ
deriving DecidableEq, Repr

/-- `CifEntryWithinExpectedResult.__init__`: run the declarative input
through `data_to_minmax` and store the resulting bounds. -/
def mkCifEntryWithin (cif_entry_name : String) (d : WithinData) :
    Except String CifEntryWithinExpectedResult :=
  match data_to_minmax d with
  | .ok p => .ok ⟨cif_entry_name, p.1, p.2⟩
  | .error m => .error m

/-- `CifEntryContainExpectedResult`. -/
structure CifEntryContainExpectedResult where
  cif_entry_name : String
  expected_value : String
deriving DecidableEq, Repr

/-- `CifEntryMissingExpectedResult`. -/
structure CifEntryMissingExpectedResult where
  cif_entry_name : String
deriving DecidableEq, Repr

/-- `CifEntryPresentExpectedResult`. -/
structure CifEntryPresentExpectedResult where
  cif_entry_name : String
  allow_unknown : Bool
deriving DecidableEq, Repr

/-- `RowLookup`: one equality condition on a loop column. -/
structure RowLookup where
  row_entry_name : String
  row_entry_value : PyValue
deriving DecidableEq, Repr

/-- The `[(lookup.row_entry_name, str(lookup.row_entry_value)) ...]`
conversion every loop test performs. -/
def rowPairs (lookups : List RowLookup) : List (String × String) :=
  lookups.map (fun lk => (lk.row_entry_name, pyStr lk.row_entry_value))

/-- `CifLoopEntryMatchExpectedResult`. -/
structure CifLoopEntryMatchExpectedResult where
  row_lookup : List RowLookup
  cif_entry_name : String
  expected_value : PyValue
deriving DecidableEq, Repr

/-- `CifLoopEntryNonMatchExpectedResult`. -/
structure CifLoopEntryNonMatchExpectedResult where
  row_lookup : List RowLookup
  cif_entry_name : String
  forbidden_value : PyValue
deriving DecidableEq, Repr

/-- `CifLoopEntryWithinExpectedResult` after construction. -/
structure CifLoopEntryWithinExpectedResult where
  row_lookup : List RowLookup
  cif_entry_name : String
  min_value : ℚ
  max_value : ℚ
deriving DecidableEq, Repr

/-- `CifLoopEntryContainExpectedResult`. -/
structure CifLoopEntryContainExpectedResult where
  row_lookup : List RowLookup
  cif_entry_name : String
  expected_value : String
deriving DecidableEq, Repr

/-- `CifLoopEntryMissingExpectedResult`. -/
structure CifLoopEntryMissingExpectedResult where
  row_lookup : List RowLookup
  cif_entry_name : String
deriving DecidableEq, Repr

/-- `CifLoopEntryPresentExpectedResult`. -/
structure CifLoopEntryPresentExpectedResult where
  row_lookup : List RowLookup
  cif_entry_name : String
  allow_unknown : Bool
deriving DecidableEq, Repr

/-- The discriminated union `ExpectedResultType` of all specification
variants. -/
inductive ExpectedResultType where
  | status (s : StatusExpectedResult)
  | entryMatch (e : CifEntryMatchExpectedResult)
  | entryNonMatch (e : CifEntryNonMatchExpectedResult)
  | entryWithin (e : CifEntryWithinExpectedResult)
  | entryContain (e : CifEntryContainExpectedResult)
  | entryMissing (e : CifEntryMissingExpectedResult)
  | entryPresent (e : CifEntryPresentExpectedResult)
  | loopMatch (e : CifLoopEntryMatchExpectedResult)
  | loopNonMatch (e : CifLoopEntryNonMatchExpectedResult)
  | loopWithin (e : CifLoopEntryWithinExpectedResult)
  | loopContain (e : CifLoopEntryContainExpectedResult)
  | loopMissing (e : CifLoopEntryMissingExpectedResult)
  | loopPresent (e : CifLoopEntryPresentExpectedResult)
deriving DecidableEq, Repr

/-- The verdict record `IndividualTestResult`. -/
structure IndividualTestResult where
  test_case_name : String
  passed : Bool
  log : String
deriving DecidableEq, Repr

/-- `generate_test_case_name`; Python treats both `None` and the empty
string as "no entry name". -/
def generate_test_case_name (test_type : String) (entry_name : Option String) :
    String :=
  match entry_name with
  | some n => if n.isEmpty then test_type ++ "_test" else test_type ++ "_" ++ n
  | none => test_type ++ "_test"

/-- Python's `str` float formatting is outside the embedding; log texts
render rationals through `toString`, which no claim inspects. -/
def ratStr (q : ℚ) : String :=
  toString q

/-- Does the second list start with the first? -/
def beginsWith : List Char → List Char → Bool
  | [], _ => true
  | _ :: _, [] => false
  | c :: cs, d :: ds => c == d && beginsWith cs ds

/-- Does the needle occur contiguously in the haystack? -/
def hasSubList (needle : List Char) : List Char → Bool
  | [] => needle.isEmpty
  | c :: cs => beginsWith needle (c :: cs) || hasSubList needle cs

/-- Bool substring test, Python `needle in hay`. -/
def strHasSub (hay needle : String) : Bool :=
  hasSubList needle.data hay.data

/-- `test_cif_entry_match`. -/
def test_cif_entry_match (b : CifBlock) (expected : CifEntryMatchExpectedResult) :
    Except PyError IndividualTestResult :=
  match get_entry_from_cif_block b expected.cif_entry_name with
  | .ok actual_value =>
      let actual_str := pyStrip (cifValueStr actual_value)
      let expected_str := pyStrip (pyStr expected.expected_value)
      let passed := actual_str == expected_str
      let log :=
        if passed then
          "✓ Entry '" ++ expected.cif_entry_name ++ "' matches expected value '"
            ++ pyStr expected.expected_value ++ "'"
        else
          "✗ Entry '" ++ expected.cif_entry_name ++ "': expected '"
            ++ pyStr expected.expected_value ++ "', got '"
            ++ cifValueStr actual_value ++ "'"
      .ok ⟨generate_test_case_name "match" (some expected.cif_entry_name),
        passed, log⟩
  | .error (.valueMissing m) =>
      .ok ⟨generate_test_case_name "match" (some expected.cif_entry_name),
        false, "✗ " ++ m⟩
  | .error e => .error e

/-- `test_cif_entry_non_match`. -/
def test_cif_entry_non_match (b : CifBlock)
    (expected : CifEntryNonMatchExpectedResult) :
    Except PyError IndividualTestResult :=
  match get_entry_from_cif_block b expected.cif_entry_name with
  | .ok actual_value =>
      let actual_str := pyStrip (cifValueStr actual_value)
      let forbidden_str := pyStrip (pyStr expected.forbidden_value)
      let passed := actual_str != forbidden_str
      let log :=
        if passed then
          "✓ Entry '" ++ expected.cif_entry_name
            ++ "' does not match forbidden value '"
            ++ pyStr expected.forbidden_value ++ "'"
        else
          "✗ Entry '" ++ expected.cif_entry_name ++ "' has forbidden value '"
            ++ pyStr expected.forbidden_value ++ "'"
      .ok ⟨generate_test_case_name "non_match" (some expected.cif_entry_name),
        passed, log⟩
  | .error (.valueMissing m) =>
      .ok ⟨generate_test_case_name "non_match" (some expected.cif_entry_name),
        false, "✗ " ++ m⟩
  | .error e => .error e

/-- `test_cif_entry_within`. -/
def test_cif_entry_within (b : CifBlock)
    (expected : CifEntryWithinExpectedResult) :
    Except PyError IndividualTestResult :=
  match get_entry_from_cif_block b expected.cif_entry_name with
  | .ok actual_value =>
      match cifFloat? actual_value with
      | none =>
          .ok ⟨generate_test_case_name "within" (some expected.cif_entry_name),
            false,
            "✗ Entry '" ++ expected.cif_entry_name ++ "' value '"
              ++ cifValueStr actual_value ++ "' is not a valid number"⟩
      | some actual_float =>
          let passed :=
            decide (expected.min_value ≤ actual_float
              ∧ actual_float ≤ expected.max_value)
          let log :=
            if passed then
              "✓ Entry '" ++ expected.cif_entry_name ++ "' value "
                ++ ratStr actual_float ++ " is within ["
                ++ ratStr expected.min_value ++ ", "
                ++ ratStr expected.max_value ++ "]"
            else
              "✗ Entry '" ++ expected.cif_entry_name ++ "' value "
                ++ ratStr actual_float ++ " is outside ["
                ++ ratStr expected.min_value ++ ", "
                ++ ratStr expected.max_value ++ "]"
          .ok ⟨generate_test_case_name "within" (some expected.cif_entry_name),
            passed, log⟩
  | .error (.valueMissing m) =>
      .ok ⟨generate_test_case_name "within" (some expected.cif_entry_name),
        false, "✗ " ++ m⟩
  | .error e => .error e

/-- `test_cif_entry_contain`. -/
def test_cif_entry_contain (b : CifBlock)
    (expected : CifEntryContainExpectedResult) :
    Except PyError IndividualTestResult :=
  match get_entry_from_cif_block b expected.cif_entry_name with
  | .ok actual_value =>
      let actual_str := cifValueStr actual_value
      let passed := strHasSub actual_str expected.expected_value
      let log :=
        if passed then
          "✓ Entry '" ++ expected.cif_entry_name ++ "' contains '"
            ++ expected.expected_value ++ "'"
        else
          "✗ Entry '" ++ expected.cif_entry_name ++ "' does not contain '"
            ++ expected.expected_value ++ "' (actual: '" ++ actual_str ++ "')"
      .ok ⟨generate_test_case_name "contain" (some expected.cif_entry_name),
        passed, log⟩
  | .error (.valueMissing m) =>
      .ok ⟨generate_test_case_name "contain" (some expected.cif_entry_name),
        false, "✗ " ++ m⟩
  | .error e => .error e

/-- `test_cif_entry_missing`. -/
def test_cif_entry_missing (b : CifBlock)
    (expected : CifEntryMissingExpectedResult) :
    Except PyError IndividualTestResult :=
  match get_entry_from_cif_block b expected.cif_entry_name with
  | .ok actual_value =>
      .ok ⟨generate_test_case_name "missing" (some expected.cif_entry_name),
        false,
        "✗ Entry '" ++ expected.cif_entry_name
          ++ "' should be missing but was found with value '"
          ++ cifValueStr actual_value ++ "'"⟩
  | .error (.valueMissing _) =>
      .ok ⟨generate_test_case_name "missing" (some expected.cif_entry_name),
        true,
        "✓ Entry '" ++ expected.cif_entry_name ++ "' is missing as expected"⟩
  | .error e => .error e

/-- `test_cif_entry_present`. -/
def test_cif_entry_present (b : CifBlock)
    (expected : CifEntryPresentExpectedResult) :
    Except PyError IndividualTestResult :=
  match get_entry_from_cif_block b expected.cif_entry_name with
  | .ok actual_value =>
      let actual_str := pyStrip (cifValueStr actual_value)
      let is_undefined := actual_str == "?" || actual_str == "."
      if is_undefined && !expected.allow_unknown then
        .ok ⟨generate_test_case_name "present" (some expected.cif_entry_name),
          false,
          "✗ Entry '" ++ expected.cif_entry_name
            ++ "' is present but has undefined value '" ++ actual_str
            ++ "' (allow_unknown=False)"⟩
      else
        .ok ⟨generate_test_case_name "present" (some expected.cif_entry_name),
          true,
          "✓ Entry '" ++ expected.cif_entry_name ++ "' is present with value '"
            ++ cifValueStr actual_value ++ "'"⟩
  | .error (.valueMissing m) =>
      .ok ⟨generate_test_case_name "present" (some expected.cif_entry_name),
        false, "✗ " ++ m⟩
  | .error e => .error e

/-- `test_cif_loop_entry_match`. -/
def test_cif_loop_entry_match (b : CifBlock)
    (expected : CifLoopEntryMatchExpectedResult) :
    Except PyError IndividualTestResult :=
  match get_loop_entry_from_cif_block b expected.cif_entry_name
      (rowPairs expected.row_lookup) with
  | .ok actual_value =>
      let actual_str := pyStrip actual_value
      let expected_str := pyStrip (pyStr expected.expected_value)
      let passed := actual_str == expected_str
      let desc := lookupDesc (rowPairs expected.row_lookup)
      let log :=
        if passed then
          "✓ Loop entry '" ++ expected.cif_entry_name ++ "' (where " ++ desc
            ++ ") matches expected value '" ++ pyStr expected.expected_value
            ++ "'"
        else
          "✗ Loop entry '" ++ expected.cif_entry_name ++ "' (where " ++ desc
            ++ "): expected '" ++ pyStr expected.expected_value ++ "', got '"
            ++ actual_value ++ "'"
      .ok ⟨generate_test_case_name "loop_match" (some expected.cif_entry_name),
        passed, log⟩
  | .error (.valueMissing m) =>
      .ok ⟨generate_test_case_name "loop_match" (some expected.cif_entry_name),
        false, "✗ " ++ m⟩
  | .error (.valueError m) =>
      .ok ⟨generate_test_case_name "loop_match" (some expected.cif_entry_name),
        false, "✗ " ++ m⟩
  | .error (.indexError m) =>
      .ok ⟨generate_test_case_name "loop_match" (some expected.cif_entry_name),
        false, "✗ " ++ m⟩
  | .error e => .error e

/-- `test_cif_loop_entry_non_match`. -/
def test_cif_loop_entry_non_match (b : CifBlock)
    (expected : CifLoopEntryNonMatchExpectedResult) :
    Except PyError IndividualTestResult :=
  match get_loop_entry_from_cif_block b expected.cif_entry_name
      (rowPairs expected.row_lookup) with
  | .ok actual_value =>
      let actual_str := pyStrip actual_value
      let forbidden_str := pyStrip (pyStr expected.forbidden_value)
      let passed := actual_str != forbidden_str
      let desc := lookupDesc (rowPairs expected.row_lookup)
      let log :=
        if passed then
          "✓ Loop entry '" ++ expected.cif_entry_name ++ "' (where " ++ desc
            ++ ") does not match forbidden value '"
            ++ pyStr expected.forbidden_value ++ "'"
        else
          "✗ Loop entry '" ++ expected.cif_entry_name ++ "' (where " ++ desc
            ++ ") has forbidden value '" ++ pyStr expected.forbidden_value
            ++ "'"
      .ok ⟨generate_test_case_name "loop_non_match"
        (some expected.cif_entry_name), passed, log⟩
  | .error (.valueMissing m) =>
      .ok ⟨generate_test_case_name "loop_non_match"
        (some expected.cif_entry_name), false, "✗ " ++ m⟩
  | .error (.valueError m) =>
      .ok ⟨generate_test_case_name "loop_non_match"
        (some expected.cif_entry_name), false, "✗ " ++ m⟩
  | .error (.indexError m) =>
      .ok ⟨generate_test_case_name "loop_non_match"
        (some expected.cif_entry_name), false, "✗ " ++ m⟩
  | .error e => .error e

/-- `test_cif_loop_entry_within`. -/
def test_cif_loop_entry_within (b : CifBlock)
    (expected : CifLoopEntryWithinExpectedResult) :
    Except PyError IndividualTestResult :=
  match get_loop_entry_from_cif_block b expected.cif_entry_name
      (rowPairs expected.row_lookup) with
  | .ok actual_value =>
      match pyFloatOfString? actual_value with
      | none =>
          .ok ⟨generate_test_case_name "loop_within"
            (some expected.cif_entry_name), false,
            "✗ Loop entry '" ++ expected.cif_entry_name ++ "' value '"
              ++ actual_value ++ "' is not a valid number"⟩
      | some actual_float =>
          let passed :=
            decide (expected.min_value ≤ actual_float
              ∧ actual_float ≤ expected.max_value)
          let desc := lookupDesc (rowPairs expected.row_lookup)
          let log :=
            if passed then
              "✓ Loop entry '" ++ expected.cif_entry_name ++ "' (where "
                ++ desc ++ ") value " ++ ratStr actual_float
                ++ " is within [" ++ ratStr expected.min_value ++ ", "
                ++ ratStr expected.max_value ++ "]"
            else
              "✗ Loop entry '" ++ expected.cif_entry_name ++ "' (where "
                ++ desc ++ ") value " ++ ratStr actual_float
                ++ " is outside [" ++ ratStr expected.min_value ++ ", "
                ++ ratStr expected.max_value ++ "]"
          .ok ⟨generate_test_case_name "loop_within"
            (some expected.cif_entry_name), passed, log⟩
  | .error (.valueMissing m) =>
      .ok ⟨generate_test_case_name "loop_within"
        (some expected.cif_entry_name), false, "✗ " ++ m⟩
  | .error (.valueError m) =>
      .ok ⟨generate_test_case_name "loop_within"
        (some expected.cif_entry_name), false, "✗ " ++ m⟩
  | .error (.indexError m) =>
      .ok ⟨generate_test_case_name "loop_within"
        (some expected.cif_entry_name), false, "✗ " ++ m⟩
  | .error e => .error e

/-- `test_cif_loop_entry_contain`. -/
def test_cif_loop_entry_contain (b : CifBlock)
    (expected : CifLoopEntryContainExpectedResult) :
    Except PyError IndividualTestResult :=
  match get_loop_entry_from_cif_block b expected.cif_entry_name
      (rowPairs expected.row_lookup) with
  | .ok actual_value =>
      let passed := strHasSub actual_value expected.expected_value
      let desc := lookupDesc (rowPairs expected.row_lookup)
      let log :=
        if passed then
          "✓ Loop entry '" ++ expected.cif_entry_name ++ "' (where " ++ desc
            ++ ") contains '" ++ expected.expected_value ++ "'"
        else
          "✗ Loop entry '" ++ expected.cif_entry_name ++ "' (where " ++ desc
            ++ ") does not contain '" ++ expected.expected_value
            ++ "' (actual: '" ++ actual_value ++ "')"
      .ok ⟨generate_test_case_name "loop_contain"
        (some expected.cif_entry_name), passed, log⟩
  | .error (.valueMissing m) =>
      .ok ⟨generate_test_case_name "loop_contain"
        (some expected.cif_entry_name), false, "✗ " ++ m⟩
  | .error (.valueError m) =>
      .ok ⟨generate_test_case_name "loop_contain"
        (some expected.cif_entry_name), false, "✗ " ++ m⟩
  | .error (.indexError m) =>
      .ok ⟨generate_test_case_name "loop_contain"
        (some expected.cif_entry_name), false, "✗ " ++ m⟩
  | .error e => .error e

/-- `test_cif_loop_entry_missing`: a `ValueMissingError` passes, and so does
a caught `ValueError`/`IndexError` from a failed row lookup; any other
exception propagates. -/
def test_cif_loop_entry_missing (b : CifBlock)
    (expected : CifLoopEntryMissingExpectedResult) :
    Except PyError IndividualTestResult :=
  match get_loop_entry_from_cif_block b expected.cif_entry_name
      (rowPairs expected.row_lookup) with
  | .ok actual_value =>
      .ok ⟨generate_test_case_name "loop_missing"
        (some expected.cif_entry_name), false,
        "✗ Loop entry '" ++ expected.cif_entry_name
          ++ "' should be missing but was found with value '" ++ actual_value
          ++ "'"⟩
  | .error (.valueMissing _) =>
      .ok ⟨generate_test_case_name "loop_missing"
        (some expected.cif_entry_name), true,
        "✓ Loop entry '" ++ expected.cif_entry_name
          ++ "' is missing as expected"⟩
  | .error (.valueError _) =>
      .ok ⟨generate_test_case_name "loop_missing"
        (some expected.cif_entry_name), true,
        "✓ Loop entry '" ++ expected.cif_entry_name
          ++ "' is missing (lookup failed as expected)"⟩
  | .error (.indexError _) =>
      .ok ⟨generate_test_case_name "loop_missing"
        (some expected.cif_entry_name), true,
        "✓ Loop entry '" ++ expected.cif_entry_name
          ++ "' is missing (lookup failed as expected)"⟩
  | .error e => .error e

/-- `test_cif_loop_entry_present`. -/
def test_cif_loop_entry_present (b : CifBlock)
    (expected : CifLoopEntryPresentExpectedResult) :
    Except PyError IndividualTestResult :=
  match get_loop_entry_from_cif_block b expected.cif_entry_name
      (rowPairs expected.row_lookup) with
  | .ok actual_value =>
      let actual_str := pyStrip actual_value
      let is_undefined := actual_str == "?" || actual_str == "."
      let desc := lookupDesc (rowPairs expected.row_lookup)
      if is_undefined && !expected.allow_unknown then
        .ok ⟨generate_test_case_name "loop_present"
          (some expected.cif_entry_name), false,
          "✗ Loop entry '" ++ expected.cif_entry_name ++ "' (where " ++ desc
            ++ ") is present but has undefined value '" ++ actual_str
            ++ "' (allow_unknown=False)"⟩
      else
        .ok ⟨generate_test_case_name "loop_present"
          (some expected.cif_entry_name), true,
          "✓ Loop entry '" ++ expected.cif_entry_name ++ "' (where " ++ desc
            ++ ") is present with value '" ++ actual_value ++ "'"⟩
  | .error (.valueMissing m) =>
      .ok ⟨generate_test_case_name "loop_present"
        (some expected.cif_entry_name), false, "✗ " ++ m⟩
  | .error (.valueError m) =>
      .ok ⟨generate_test_case_name "loop_present"
        (some expected.cif_entry_name), false, "✗ " ++ m⟩
  | .error (.indexError m) =>
      .ok ⟨generate_test_case_name "loop_present"
        (some expected.cif_entry_name), false, "✗ " ++ m⟩
  | .error e => .error e

/-- `check_result`: dispatch through `TEST_FUNCTION_MAP`; the status variant
has no map entry, so it falls into the unknown-test-type verdict.  The
adapter construction from `cif_text` is the deterministic external parse, so
the block itself is the argument here. -/
def check_result (b : CifBlock) (expected_result : ExpectedResultType) :
    Except PyError IndividualTestResult :=
  match expected_result with
  | .entryMatch e => test_cif_entry_match b e
  | .entryNonMatch e => test_cif_entry_non_match b e
  | .entryWithin e => test_cif_entry_within b e
  | .entryContain e => test_cif_entry_contain b e
  | .entryMissing e => test_cif_entry_missing b e
  | .entryPresent e => test_cif_entry_present b e
  | .loopMatch e => test_cif_loop_entry_match b e
  | .loopNonMatch e => test_cif_loop_entry_non_match b e
  | .loopWithin e => test_cif_loop_entry_within b e
  | .loopContain e => test_cif_loop_entry_contain b e
  | .loopMissing e => test_cif_loop_entry_missing b e
  | .loopPresent e => test_cif_loop_entry_present b e
  | .status _ =>
      .ok ⟨generate_test_case_name "unknown" none, false,
        "✗ Unknown test type: StatusExpectedResult"⟩

/-- Whether the three loop-entry except-clauses catch the error
(`ValueMissingError`, `ValueError`, `IndexError`). -/
def isCaughtByLoopTests : PyError → Bool
  | .valueMissing _ => true
  | .valueError _ => true
  | .indexError _ => true
  | _ => false

/-- A sample block: one scalar and one loop whose `_l.idx` column matches
`"1"` once and `"2"` twice. -/
def sampleLoopBlock : CifBlock :=
  ⟨[("_a", "C")], [⟨[("_l.idx", ["1", "2", "2"]), ("_l.val", ["a", "b", "c"])]⟩]⟩

/-- A sample block with a two-condition loop (spec scenario D). -/
def sampleMultiBlock : CifBlock :=
  ⟨[], [⟨[("_loop_entry.index", ["2", "2"]),
    ("_loop_entry.index_additional", ["6", "7"]),
    ("_loop_entry.value", ["18", "13"])]⟩]⟩

/-- A sample block whose entry text is `1.234`. -/
def repBlock : CifBlock :=
  ⟨[("_cif.entry2", "1.234")], []⟩

/-- A sample block whose entry carries the unknown sentinel `?`. -/
def qBlock : CifBlock :=
  ⟨[("_x", "?")], []⟩

/-- A sample block with the numeric entry text `5.5`. -/
def numBlock : CifBlock :=
  ⟨[("_result.value", "5.5")], []⟩

/-- String append is associative (componentwise list append). -/
theorem strAppend_assoc (a b c : String) : a ++ b ++ c = a ++ (b ++ c) := by
  apply congrArg String.mk
  simp [String.instAppend, String.append]

/-- The empty string is a right identity of append. -/
theorem strAppend_empty (a : String) : a ++ "" = a :=
  congrArg String.mk (List.append_nil a.data)

/-- A string ending in a needle contains that needle. -/
theorem sub_of_suffix_decomp (A s needle : String) :
    ∃ pre post, A ++ (s ++ needle) = pre ++ needle ++ post :=
  ⟨A ++ s, "", by rw [strAppend_empty, strAppend_assoc]⟩

/-- A string with a needle in the middle contains that needle. -/
theorem mid_sub2 (A s1 needle s2 B C : String) :
    ∃ pre post, A ++ (s1 ++ needle ++ s2) ++ B ++ C = pre ++ needle ++ post :=
  ⟨A ++ s1, s2 ++ B ++ C, by simp [strAppend_assoc]⟩

/-- C1: behaviour of the tabular lookup at its three outcome kinds.  On
`sampleLoopBlock`, a uniquely matching condition returns the entry value in
that row, an unmatched condition raises the no-matching-row `ValueError`,
and a doubly matching condition raises a `TypeError` from evaluating
`" ".join` on the set of integer row indices — the intended ambiguous-row
`ValueError("More than one row found ...")` on the next source line is never
reached.  The final conjunct shows two-condition AND intersection selecting
the unique common row. -/
theorem c1_loop_lookup_outcomes_eval :
    get_loop_entry_from_cif_block sampleLoopBlock "_l.val" [("_l.idx", "1")]
      = .ok "a"
    ∧ get_loop_entry_from_cif_block sampleLoopBlock "_l.val" [("_l.idx", "3")]
      = .error (.valueError "No row found matching conditions: _l.idx=3")
    ∧ get_loop_entry_from_cif_block sampleLoopBlock "_l.val" [("_l.idx", "2")]
      = .error (.typeError "sequence item 0: expected str instance, int found")
    ∧ get_loop_entry_from_cif_block sampleMultiBlock "_loop_entry.value"
        [("_loop_entry.index", "2"), ("_loop_entry.index_additional", "6")]
      = .ok "18" :=
  ⟨rfl, rfl, rfl, rfl⟩

/-- C2 counterexample: the deviation input form with a negative
`allowed_deviation` constructs successfully and the constructed
specification violates `min_value ≤ max_value`. -/
theorem c2_neg_deviation_counterexample :
    mkCifEntryWithin "_e" ⟨some 0, some (-1), none, none⟩ = .ok ⟨"_e", 1, -1⟩
    ∧ ¬((1 : ℚ) ≤ -1) := by
  constructor
  · simp [mkCifEntryWithin, data_to_minmax, WithinData.has1, WithinData.has2]
  · norm_num

/-- C2 amended: whenever the explicit min/max branch is the one taken
(the deviation form is not fully supplied), a successful construction
satisfies `min_value ≤ max_value`; the deviation form always constructs,
with bounds `expected ∓ deviation`, and satisfies the invariant exactly when
the deviation is nonnegative. -/
theorem c2_minmax_invariant_amended :
    (∀ (name : String) (d : WithinData) (r : CifEntryWithinExpectedResult),
      d.has1 = false → mkCifEntryWithin name d = .ok r →
        r.min_value ≤ r.max_value)
    ∧ (∀ (name : String) (e dev : ℚ), 0 ≤ dev →
      mkCifEntryWithin name ⟨some e, some dev, none, none⟩
          = .ok ⟨name, e - dev, e + dev⟩
        ∧ e - dev ≤ e + dev) := by
  constructor
  · intro name d r h1 hok
    unfold mkCifEntryWithin data_to_minmax at hok
    rw [h1] at hok
    by_cases h2 : d.has2 = true
    · rw [h2] at hok
      simp at hok
      by_cases hcmp : d.min_value.getD 0 > d.max_value.getD 0
      · rw [if_pos hcmp] at hok
        exact absurd hok (by simp)
      · rw [if_neg hcmp] at hok
        simp at hok
        rw [← hok]
        exact le_of_not_lt hcmp
    · simp at h2
      rw [h2] at hok
      simp at hok
  · intro name e dev hdev
    refine ⟨?_, by linarith⟩
    simp [mkCifEntryWithin, data_to_minmax, WithinData.has1]

/-- C2 witness: the amended theorem applied at concrete inputs. -/
theorem c2_minmax_invariant_witness :
    (((⟨"_w", 1, 2⟩ : CifEntryWithinExpectedResult).min_value
      ≤ (⟨"_w", 1, 2⟩ : CifEntryWithinExpectedResult).max_value)
    ∧ (mkCifEntryWithin "_w" ⟨some 3, some 1, none, none⟩
        = .ok ⟨"_w", 3 - 1, 3 + 1⟩ ∧ (3 : ℚ) - 1 ≤ 3 + 1)) :=
  ⟨c2_minmax_invariant_amended.1 "_w" ⟨none, none, some 1, some 2⟩ ⟨"_w", 1, 2⟩
      (by simp [WithinData.has1])
      (by simp [mkCifEntryWithin, data_to_minmax, WithinData.has1,
        WithinData.has2]),
    c2_minmax_invariant_amended.2 "_w" 3 1 (by norm_num)⟩

/-- C6 counterexample: supplying the fields of both input forms together
does not fail construction: the deviation form silently takes priority and
the explicit `min_value`/`max_value` are ignored. -/
theorem c6_combined_forms_counterexample :
    data_to_minmax ⟨some 1, some 1, some 5, some 6⟩ = .ok (0, 2) := by
  simp [data_to_minmax, WithinData.has1, WithinData.has2]
  norm_num

/-- C6 amended: construction fails when neither input form is fully
supplied; when the fields of both forms are supplied together, construction
does not fail: the deviation form silently takes priority and the explicit
`min_value`/`max_value` fields are ignored.  (The explicit form alone still
fails separately when `min_value > max_value`, as settled under C2.) -/
theorem c6_input_forms_amended :
    (∀ d : WithinData, d.has1 = false → d.has2 = false →
      data_to_minmax d
        = .error "Within test requires either (expected_value + allowed_deviation) or (min_value + max_value)")
    ∧ (∀ (e dev mn mx : ℚ),
      data_to_minmax ⟨some e, some dev, some mn, some mx⟩
        = .ok (e - dev, e + dev)) := by
  constructor
  · intro d h1 h2
    unfold data_to_minmax
    rw [h1, h2]
    rfl
  · intro e dev mn mx
    simp [data_to_minmax, WithinData.has1]

/-- C6 witness: the amended theorem applied at concrete inputs. -/
theorem c6_input_forms_witness :
    data_to_minmax ⟨some 1, none, none, none⟩
      = .error "Within test requires either (expected_value + allowed_deviation) or (min_value + max_value)"
    ∧ data_to_minmax ⟨some 2, some 1, some 7, some 9⟩ = .ok (2 - 1, 2 + 1) :=
  ⟨c6_input_forms_amended.1 ⟨some 1, none, none, none⟩ rfl rfl,
    c6_input_forms_amended.2 2 1 7 9⟩

/-- C7 counterexample: built from `(expected_value, allowed_deviation) =
(0, -1)` the construction succeeds with bounds `(1, -1)`, and
`min_value ≤ expected_value` fails. -/
theorem c7_neg_deviation_counterexample :
    data_to_minmax ⟨some 0, some (-1), none, none⟩ = .ok (1, -1)
    ∧ ¬((1 : ℚ) ≤ 0) := by
  constructor
  · simp [data_to_minmax, WithinData.has1]
  · norm_num

/-- C7 amended: for every construction from the deviation form,
`max_value - min_value = 2 * allowed_deviation` holds exactly over the
rationals, and `min_value ≤ expected_value ≤ max_value` holds whenever the
allowed deviation is nonnegative. -/
theorem c7_deviation_form_amended :
    ∀ (e dev mn mx : ℚ),
      data_to_minmax ⟨some e, some dev, none, none⟩ = .ok (mn, mx) →
        mx - mn = 2 * dev ∧ (0 ≤ dev → mn ≤ e ∧ e ≤ mx) := by
  intro e dev mn mx h
  simp [data_to_minmax, WithinData.has1] at h
  obtain ⟨h1, h2⟩ := h
  constructor
  · rw [← h1, ← h2]; ring
  · intro hdev
    rw [← h1, ← h2]
    constructor <;> linarith

/-- C7 witness: the amended theorem applied at a concrete input. -/
theorem c7_deviation_form_witness :
    ((3 : ℚ)/2 - 1/2 = 2 * (1/2))
    ∧ ((0 : ℚ) ≤ 1/2 → (1 : ℚ)/2 ≤ 1 ∧ (1 : ℚ) ≤ 3/2) :=
  c7_deviation_form_amended 1 (1/2) (1/2) (3/2)
    (by simp [data_to_minmax, WithinData.has1]; norm_num)

/-- C9: evaluating the same specification against the same parsed document
twice yields identical verdicts; `check_result` is a pure function of the
parsed block and the specification, and the external CIF parse of a fixed
`cif_text` is deterministic. -/
theorem c9_check_result_deterministic (b : CifBlock) (e : ExpectedResultType) :
    check_result b e = check_result b e := rfl

/-- C10: for a status specification, `check_result` does not propagate an
error: the status variant has no handler in the dispatch map, so evaluation
returns a failed verdict whose log contains "Unknown test type". -/
theorem c10_status_unknown_test_type (b : CifBlock) (s : StatusExpectedResult) :
    check_result b (.status s)
      = .ok ⟨"unknown_test", false, "✗ Unknown test type: StatusExpectedResult"⟩
    ∧ ∃ pre post : String,
      "✗ Unknown test type: StatusExpectedResult"
        = pre ++ "Unknown test type" ++ post :=
  ⟨rfl, "✗ ", ": StatusExpectedResult", rfl⟩

/-- C3: a match test whose entry resolves produces a verdict that passes
exactly when the stripped string rendering of the resolved value equals the
stripped string rendering of the expected value, for scalar and tabular
targets alike; the final conjunct shows the comparison is representational:
`1.234` and `1.2340` denote the same rational under the numeric parse, but a
document literal `1.234` does not match an expected literal `1.2340`. -/
theorem c3_match_trimmed_representation :
    (∀ (b : CifBlock) (e : CifEntryMatchExpectedResult) (v : CifValue),
      get_entry_from_cif_block b e.cif_entry_name = .ok v →
      ∃ r, test_cif_entry_match b e = .ok r ∧
        (r.passed = true
          ↔ pyStrip (cifValueStr v) = pyStrip (pyStr e.expected_value)))
    ∧ (∀ (b : CifBlock) (e : CifLoopEntryMatchExpectedResult) (v : String),
      get_loop_entry_from_cif_block b e.cif_entry_name (rowPairs e.row_lookup)
          = .ok v →
      ∃ r, test_cif_loop_entry_match b e = .ok r ∧
        (r.passed = true ↔ pyStrip v = pyStrip (pyStr e.expected_value)))
    ∧ (pyFloatOfString? "1.234" = pyFloatOfString? "1.2340"
      ∧ (pyFloatOfString? "1.234").isSome = true
      ∧ pyStrip "1.234" ≠ pyStrip "1.2340"
      ∧ test_cif_entry_match repBlock ⟨"_cif.entry2", .str "1.2340"⟩
          = .ok ⟨"match__cif.entry2", false,
            "✗ Entry '_cif.entry2': expected '1.2340', got '1.234'"⟩) := by
  refine ⟨?_, ?_, ?_, by decide, by decide, rfl⟩
  · intro b e v h
    unfold test_cif_entry_match
    rw [h]
    exact ⟨_, rfl, by simp⟩
  · intro b e v h
    unfold test_cif_loop_entry_match
    rw [h]
    exact ⟨_, rfl, by simp⟩
  · simp [pyFloatOfString?,
      show pyFloatCore (pyStrip "1.234").data
        = some ⟨1, ['1'], ['2', '3', '4'], 0⟩ from rfl,
      show pyFloatCore (pyStrip "1.2340").data
        = some ⟨1, ['1'], ['2', '3', '4', '0'], 0⟩ from rfl,
      partsVal, digitsVal]
    norm_num

/-- C3 witness: the scalar conjunct applied to a concrete document. -/
theorem c3_match_witness :
    ∃ r, test_cif_entry_match sampleLoopBlock ⟨"_a", .str "C"⟩ = .ok r ∧
      (r.passed = true
        ↔ pyStrip (cifValueStr (.scalar "C"))
          = pyStrip (pyStr (.str "C"))) :=
  c3_match_trimmed_representation.1 sampleLoopBlock ⟨"_a", .str "C"⟩
    (.scalar "C") rfl

/-- C4: a within test whose entry resolves fails with a log containing
"not a valid number" when the value does not parse numerically, and
otherwise passes exactly when the parsed value lies inside the inclusive
bounds; for scalar and tabular targets alike. -/
theorem c4_within_range_semantics :
    (∀ (b : CifBlock) (e : CifEntryWithinExpectedResult) (v : CifValue),
      get_entry_from_cif_block b e.cif_entry_name = .ok v →
      ∃ r, test_cif_entry_within b e = .ok r ∧
        (cifFloat? v = none → r.passed = false
          ∧ ∃ pre post, r.log = pre ++ "not a valid number" ++ post)
        ∧ (∀ q, cifFloat? v = some q →
          (r.passed = true ↔ e.min_value ≤ q ∧ q ≤ e.max_value)))
    ∧ (∀ (b : CifBlock) (e : CifLoopEntryWithinExpectedResult) (v : String),
      get_loop_entry_from_cif_block b e.cif_entry_name (rowPairs e.row_lookup)
          = .ok v →
      ∃ r, test_cif_loop_entry_within b e = .ok r ∧
        (pyFloatOfString? v = none → r.passed = false
          ∧ ∃ pre post, r.log = pre ++ "not a valid number" ++ post)
        ∧ (∀ q, pyFloatOfString? v = some q →
          (r.passed = true ↔ e.min_value ≤ q ∧ q ≤ e.max_value))) := by
  constructor
  · intro b e v h
    simp only [test_cif_entry_within, h]
    cases hf : cifFloat? v with
    | none =>
        refine ⟨_, rfl, fun _ => ⟨rfl, ?_⟩, fun q hq => nomatch hq⟩
        rw [show ("' is not a valid number" : String)
          = "' is " ++ "not a valid number" from rfl]
        exact sub_of_suffix_decomp _ _ _
    | some q =>
        refine ⟨_, rfl, ?_, fun q' hq' => ?_⟩
        · intro hnone
          simp at hnone
        · injection hq' with hq'
          subst hq'
          simp
  · intro b e v h
    simp only [test_cif_loop_entry_within, h]
    cases hf : pyFloatOfString? v with
    | none =>
        refine ⟨_, rfl, fun _ => ⟨rfl, ?_⟩, fun q hq => nomatch hq⟩
        rw [show ("' is not a valid number" : String)
          = "' is " ++ "not a valid number" from rfl]
        exact sub_of_suffix_decomp _ _ _
    | some q =>
        refine ⟨_, rfl, ?_, fun q' hq' => ?_⟩
        · intro hnone
          simp at hnone
        · injection hq' with hq'
          subst hq'
          simp

/-- C4 witness: the scalar conjunct applied to a concrete document. -/
theorem c4_within_witness :
    ∃ r, test_cif_entry_within numBlock ⟨"_result.value", 5, 6⟩ = .ok r ∧
      (cifFloat? (.scalar "5.5") = none → r.passed = false
        ∧ ∃ pre post, r.log = pre ++ "not a valid number" ++ post)
      ∧ (∀ q, cifFloat? (.scalar "5.5") = some q →
        (r.passed = true ↔ (5 : ℚ) ≤ q ∧ q ≤ 6)) :=
  c4_within_range_semantics.1 numBlock ⟨"_result.value", 5, 6⟩
    (.scalar "5.5") rfl

/-- C5: for a tabular absent test whose membership checks pass and whose
row-index intersection is computed, an empty intersection (no matching row)
yields a passing verdict, while an intersection with at least two indices
(ambiguous row) propagates the evaluation error out of the test routine —
only `ValueMissingError`, `ValueError` and `IndexError` are caught, and the
ambiguous branch raises a `TypeError` — so ambiguity never produces a
passing verdict. -/
theorem c5_loop_missing_ambiguous_not_absent (b : CifBlock)
    (e : CifLoopEntryMissingExpectedResult) (l : CifLoop) (ov : List Nat)
    (hentry : b.hasEntry e.cif_entry_name = true)
    (hlk : ∀ p ∈ rowPairs e.row_lookup, b.hasEntry p.1 = true)
    (hloop : b.getLoop? e.cif_entry_name = some l)
    (hov : loopOverlap l (rowPairs e.row_lookup) = .ok ov) :
    (ov = [] → test_cif_loop_entry_missing b e =
      .ok ⟨generate_test_case_name "loop_missing" (some e.cif_entry_name), true,
        "✓ Loop entry '" ++ e.cif_entry_name
          ++ "' is missing (lookup failed as expected)"⟩)
    ∧ (2 ≤ ov.length → test_cif_loop_entry_missing b e =
      .error (.typeError "sequence item 0: expected str instance, int found"))
    := by
  have hfind : (rowPairs e.row_lookup).find? (fun p => !(b.hasEntry p.1))
      = none := by
    rw [List.find?_eq_none]
    intro p hp
    simp [hlk p hp]
  constructor
  · intro h0
    subst h0
    simp [test_cif_loop_entry_missing, get_loop_entry_from_cif_block, hentry,
      hfind, hloop, hov]
  · intro h2
    match ov, h2 with
    | i :: j :: rest, _ =>
      simp [test_cif_loop_entry_missing, get_loop_entry_from_cif_block, hentry,
        hfind, hloop, hov]

/-- C5 witness: the theorem applied to the sample block, whose `_l.idx`
column matches `"2"` in two rows, so the overlap is `[1, 2]`. -/
theorem c5_loop_missing_witness :
    (([1, 2] : List Nat) = [] →
      test_cif_loop_entry_missing sampleLoopBlock ⟨[⟨"_l.idx", .str "2"⟩], "_l.val"⟩
        = .ok ⟨generate_test_case_name "loop_missing" (some "_l.val"), true,
          "✓ Loop entry '" ++ "_l.val"
            ++ "' is missing (lookup failed as expected)"⟩)
    ∧ (2 ≤ ([1, 2] : List Nat).length →
      test_cif_loop_entry_missing sampleLoopBlock ⟨[⟨"_l.idx", .str "2"⟩], "_l.val"⟩
        = .error (.typeError "sequence item 0: expected str instance, int found")) :=
  c5_loop_missing_ambiguous_not_absent sampleLoopBlock
    ⟨[⟨"_l.idx", .str "2"⟩], "_l.val"⟩
    ⟨[("_l.idx", ["1", "2", "2"]), ("_l.val", ["a", "b", "c"])]⟩ [1, 2]
    rfl (by decide) rfl rfl

/-- C8 counterexample: a tabular present test whose resolution fails because
two rows match the condition does not produce a failing verdict carrying the
error message — the `TypeError` raised while formatting the ambiguous-row
diagnostic is not among the caught error kinds and propagates out of the
test routine, so no verdict is produced at all. -/
theorem c8_ambiguous_present_counterexample :
    get_loop_entry_from_cif_block sampleLoopBlock "_l.val"
        (rowPairs [⟨"_l.idx", .str "2"⟩])
      = .error (.typeError "sequence item 0: expected str instance, int found")
    ∧ test_cif_loop_entry_present sampleLoopBlock
        ⟨[⟨"_l.idx", .str "2"⟩], "_l.val", false⟩
      = .error (.typeError "sequence item 0: expected str instance, int found")
    := ⟨rfl, rfl⟩

/-- C8 amended: present-test semantics.  Scalar targets: a missing entry
yields a failing verdict carrying the underlying error message; a resolved
value whose stripped text is an unknown sentinel (`?` or `.`) passes exactly
when `allow_unknown` holds, with a log mentioning "undefined" when it does
not; any other resolved value passes.  Tabular targets behave the same,
except that only resolution failures of the caught kinds
(`ValueMissingError`, `ValueError`, `IndexError`) become failing verdicts
with the underlying message — an uncaught kind (such as the `TypeError`
raised on an ambiguous row) propagates and produces no verdict. -/
theorem c8_present_semantics_amended :
    ((∀ (b : CifBlock) (e : CifEntryPresentExpectedResult) (m : String),
      get_entry_from_cif_block b e.cif_entry_name = .error (.valueMissing m) →
      test_cif_entry_present b e
        = .ok ⟨generate_test_case_name "present" (some e.cif_entry_name),
          false, "✗ " ++ m⟩)
    ∧ (∀ (b : CifBlock) (e : CifEntryPresentExpectedResult) (v : CifValue),
      get_entry_from_cif_block b e.cif_entry_name = .ok v →
      ∃ r, test_cif_entry_present b e = .ok r ∧
        ((pyStrip (cifValueStr v) = "?" ∨ pyStrip (cifValueStr v) = ".") →
          r.passed = e.allow_unknown
          ∧ (e.allow_unknown = false →
            ∃ pre post, r.log = pre ++ "undefined" ++ post))
        ∧ ((pyStrip (cifValueStr v) ≠ "?" ∧ pyStrip (cifValueStr v) ≠ ".") →
          r.passed = true)))
    ∧ ((∀ (b : CifBlock) (e : CifLoopEntryPresentExpectedResult) (err : PyError),
      get_loop_entry_from_cif_block b e.cif_entry_name (rowPairs e.row_lookup)
          = .error err →
      (isCaughtByLoopTests err = true →
        test_cif_loop_entry_present b e
          = .ok ⟨generate_test_case_name "loop_present" (some e.cif_entry_name),
            false, "✗ " ++ err.msg⟩)
      ∧ (isCaughtByLoopTests err = false →
        test_cif_loop_entry_present b e = .error err))
    ∧ (∀ (b : CifBlock) (e : CifLoopEntryPresentExpectedResult) (v : String),
      get_loop_entry_from_cif_block b e.cif_entry_name (rowPairs e.row_lookup)
          = .ok v →
      ∃ r, test_cif_loop_entry_present b e = .ok r ∧
        ((pyStrip v = "?" ∨ pyStrip v = ".") →
          r.passed = e.allow_unknown
          ∧ (e.allow_unknown = false →
            ∃ pre post, r.log = pre ++ "undefined" ++ post))
        ∧ ((pyStrip v ≠ "?" ∧ pyStrip v ≠ ".") → r.passed = true))) := by
  refine ⟨⟨?_, ?_⟩, ?_, ?_⟩
  · intro b e m h
    simp [test_cif_entry_present, h]
  · intro b e v h
    by_cases hu : pyStrip (cifValueStr v) = "?" ∨ pyStrip (cifValueStr v) = "."
    · have hb : (pyStrip (cifValueStr v) == "?"
          || pyStrip (cifValueStr v) == ".") = true := by
        rcases hu with h' | h' <;> simp [h']
      cases ha : e.allow_unknown with
      | false =>
          refine ⟨⟨generate_test_case_name "present" (some e.cif_entry_name),
              false,
              "✗ Entry '" ++ e.cif_entry_name
                ++ "' is present but has undefined value '"
                ++ pyStrip (cifValueStr v) ++ "' (allow_unknown=False)"⟩,
            by simp [test_cif_entry_present, h, hb, ha],
            fun _ => ⟨rfl, fun _ => ?_⟩,
            fun hnot => absurd hu (not_or.mpr hnot)⟩
          rw [show ("' is present but has undefined value '" : String)
            = "' is present but has " ++ "undefined" ++ " value '" from rfl]
          exact mid_sub2 _ _ _ _ _ _
      | true =>
          exact ⟨⟨generate_test_case_name "present" (some e.cif_entry_name),
              true,
              "✓ Entry '" ++ e.cif_entry_name ++ "' is present with value '"
                ++ cifValueStr v ++ "'"⟩,
            by simp [test_cif_entry_present, h, hb, ha],
            fun _ => ⟨rfl, fun hf => by cases hf⟩,
            fun _ => rfl⟩
    · have hb : (pyStrip (cifValueStr v) == "?"
          || pyStrip (cifValueStr v) == ".") = false := by
        push_neg at hu
        simp [hu.1, hu.2]
      exact ⟨⟨generate_test_case_name "present" (some e.cif_entry_name), true,
          "✓ Entry '" ++ e.cif_entry_name ++ "' is present with value '"
            ++ cifValueStr v ++ "'"⟩,
        by simp [test_cif_entry_present, h, hb],
        fun hu' => absurd hu' hu,
        fun _ => rfl⟩
  · intro b e err herr
    cases err with
    | valueMissing m =>
        exact ⟨fun _ => by simp [test_cif_loop_entry_present, herr, PyError.msg],
          fun hc => by simp [isCaughtByLoopTests] at hc⟩
    | valueError m =>
        exact ⟨fun _ => by simp [test_cif_loop_entry_present, herr, PyError.msg],
          fun hc => by simp [isCaughtByLoopTests] at hc⟩
    | indexError m =>
        exact ⟨fun _ => by simp [test_cif_loop_entry_present, herr, PyError.msg],
          fun hc => by simp [isCaughtByLoopTests] at hc⟩
    | typeError m =>
        exact ⟨fun hc => by simp [isCaughtByLoopTests] at hc,
          fun _ => by simp [test_cif_loop_entry_present, herr]⟩
    | keyError m =>
        exact ⟨fun hc => by simp [isCaughtByLoopTests] at hc,
          fun _ => by simp [test_cif_loop_entry_present, herr]⟩
  · intro b e v h
    by_cases hu : pyStrip v = "?" ∨ pyStrip v = "."
    · have hb : (pyStrip v == "?" || pyStrip v == ".") = true := by
        rcases hu with h' | h' <;> simp [h']
      cases ha : e.allow_unknown with
      | false =>
          refine ⟨⟨generate_test_case_name "loop_present"
              (some e.cif_entry_name), false,
              "✗ Loop entry '" ++ e.cif_entry_name ++ "' (where "
                ++ lookupDesc (rowPairs e.row_lookup)
                ++ ") is present but has undefined value '" ++ pyStrip v
                ++ "' (allow_unknown=False)"⟩,
            by simp [test_cif_loop_entry_present, h, hb, ha],
            fun _ => ⟨rfl, fun _ => ?_⟩,
            fun hnot => absurd hu (not_or.mpr hnot)⟩
          rw [show (") is present but has undefined value '" : String)
            = ") is present but has " ++ "undefined" ++ " value '" from rfl]
          exact mid_sub2 _ _ _ _ _ _
      | true =>
          exact ⟨⟨generate_test_case_name "loop_present"
              (some e.cif_entry_name), true,
              "✓ Loop entry '" ++ e.cif_entry_name ++ "' (where "
                ++ lookupDesc (rowPairs e.row_lookup)
                ++ ") is present with value '" ++ v ++ "'"⟩,
            by simp [test_cif_loop_entry_present, h, hb, ha],
            fun _ => ⟨rfl, fun hf => by cases hf⟩,
            fun _ => rfl⟩
    · have hb : (pyStrip v == "?" || pyStrip v == ".") = false := by
        push_neg at hu
        simp [hu.1, hu.2]
      exact ⟨⟨generate_test_case_name "loop_present"
          (some e.cif_entry_name), true,
          "✓ Loop entry '" ++ e.cif_entry_name ++ "' (where "
            ++ lookupDesc (rowPairs e.row_lookup)
            ++ ") is present with value '" ++ v ++ "'"⟩,
        by simp [test_cif_loop_entry_present, h, hb],
        fun hu' => absurd hu' hu,
        fun _ => rfl⟩

/-- C8 witness: the scalar resolved-value conjunct applied to a document
whose entry is the unknown sentinel, with `allow_unknown = false`. -/
theorem c8_present_witness :
    ∃ r, test_cif_entry_present qBlock ⟨"_x", false⟩ = .ok r ∧
      ((pyStrip (cifValueStr (.scalar "?")) = "?"
          ∨ pyStrip (cifValueStr (.scalar "?")) = ".") →
        r.passed = (⟨"_x", false⟩ : CifEntryPresentExpectedResult).allow_unknown
        ∧ ((⟨"_x", false⟩ : CifEntryPresentExpectedResult).allow_unknown = false →
          ∃ pre post, r.log = pre ++ "undefined" ++ post))
      ∧ ((pyStrip (cifValueStr (.scalar "?")) ≠ "?"
          ∧ pyStrip (cifValueStr (.scalar "?")) ≠ ".") → r.passed = true) :=
  c8_present_semantics_amended.1.2 qBlock ⟨"_x", false⟩ (.scalar "?") rfl

end QcrboxCmdTester
